import Mathlib

/-!
Verification of the thermostat connection-lifecycle, polling and command-dispatch
subsystem of the raspberry_extension_server repository.

The Python sources are embedded shallowly:

* `Mode` models the set-like result of `thermostat.mode.to_dict()`; the Python
  tests `OFF in mode`, `MANUAL in mode`, `AUTO in mode` become Boolean
  field reads.
* Machine floats used for temperatures, humidities and valve positions are
  modelled as rationals (`ℚ`) respectively integers; only their ordering is
  ever consulted by the code under verification.
* Each BLE-touching operation is embedded as a function from a `BleOracle`
  (which fixes the success or failure of every external call the operation can
  make) to the list of transport/persistence invocations it performs (a trace
  of `Event`s), the updated state, and the returned result.  `try/finally`
  blocks become explicit trace concatenation on every branch.
-/

namespace RaspberryExtensionServer

/-- Result of `thermostat.mode.to_dict()`: which of the mode flags the device
reported.  A membership test on the mode dict in Python is the corresponding field here. -/
structure Mode where
  off : Bool
  manual : Bool
  auto : Bool
deriving DecidableEq, Repr

/-- The dictionary `{"int": n, "str": s}` returned by
`ThermostatObject.calculate_heating_cooling_state`. -/
structure HCState where
  int : Nat
  str : String
deriving DecidableEq, Repr

/-- `ThermostatObject.calculate_heating_cooling_state` (ServerObjects/thermostat_object.py).
This is the richer 4-state calculator the spec adopts as canonical.
The Python `elif valve and valve > 0` tests truthiness of `valve` first,
mirrored by the conjunction `v ≠ 0 ∧ 0 < v`. -/
def calculate_heating_cooling_state (mode : Mode) (valve : Option Int) : HCState :=
  match valve with
  | some v =>
      if mode.off = true ∨ v ≤ 0 then ⟨0, "Off"⟩
      else if v ≠ 0 ∧ 0 < v then ⟨1, "Heating"⟩
      else ⟨0, "Off"⟩
  | none =>
      if mode.auto = true then ⟨3, "Auto"⟩
      else if mode.manual = true then ⟨1, "Manual"⟩
      else ⟨0, "Off"⟩

/-- `calculate_heating_cooling_state` from api/models/thermostat.py: the simpler
calculator that returns a bare integer.  With `valve = none` the Python
`elif valve and valve > 0` branch is falsy, so both remaining branches give 0. -/
def api_calculate_heating_cooling_state (mode : Mode) (valve : Option Int) : Nat :=
  match valve with
  | some v =>
      if mode.off = true ∨ v ≤ 0 then 0
      else if v ≠ 0 ∧ 0 < v then 1
      else 0
  | none =>
      if mode.off = true then 0
      else 0

/-- C1: the state calculator is a pure function of (mode, valve) — determinism is
definitional for a Lean `def` — and satisfies exactly the case analysis the spec
states: with a valve reading, `OFF` in mode or `valve ≤ 0` gives Off(0) and a
positive valve gives Heating(1); without a valve reading, `AUTO` gives Auto(3),
`MANUAL` gives Manual(1), and otherwise Off(0). -/
theorem C1_state_calculator_cases (m : Mode) (v : Int) :
    (calculate_heating_cooling_state m (some v) =
      if m.off = true ∨ v ≤ 0 then ⟨0, "Off"⟩ else ⟨1, "Heating"⟩)
    ∧ (calculate_heating_cooling_state m none =
      if m.auto = true then ⟨3, "Auto"⟩
      else if m.manual = true then ⟨1, "Manual"⟩
      else ⟨0, "Off"⟩) := by
  refine ⟨?_, rfl⟩
  simp only [calculate_heating_cooling_state]
  split_ifs with h1 h2
  · rfl
  · rfl
  · exfalso
    push_neg at h1
    exact h2 ⟨by omega, by omega⟩

/-- One invocation of an external collaborator: a BLE transport primitive or a
persistence call.  A trace of these is recorded for every embedded operation. -/
inductive Event where
  | connect
  | requestStatus
  | setTemperatureCmd (value : ℚ)
  | setTemperatureOff
  | setModeManual
  | setModeAuto
  | disconnect
  | saveStore
deriving DecidableEq, Repr

/-- Number of occurrences of an event in a trace. -/
def countEvent (e : Event) : List Event → Nat
  | [] => 0
  | x :: xs => (if x = e then 1 else 0) + countEvent e xs

/-- Fixes the outcome of every fallible external call an embedded operation can
make: the BLE `connect`, the `requestStatus` round-trip, the BLE command
(`setTemperature` / `setTemperatureOff` / `setModeManual` / `setModeAuto`), and
the YAML persistence write. -/
structure BleOracle where
  connectOk : Bool
  requestOk : Bool
  cmdOk : Bool
  saveOk : Bool
deriving DecidableEq, Repr

/-- An oracle under which every external call succeeds. -/
def allOk : BleOracle := ⟨true, true, true, true⟩

/-- Whether the Python control flow finished normally or an exception escaped. -/
inductive Outcome where
  | ok
  | exc
deriving DecidableEq, Repr

/-- The `try` block of `ThermostatObject.poll_status`: `safe_connect`, then
`requestStatus`, then pure field updates.  A failing connect raises out of
`safe_connect`; a failing request raises after the connect invocation. -/
def objPollTryTrace (o : BleOracle) : List Event × Outcome :=
  if o.connectOk = true then
    if o.requestOk = true then ([Event.connect, Event.requestStatus], Outcome.ok)
    else ([Event.connect, Event.requestStatus], Outcome.exc)
  else ([Event.connect], Outcome.exc)

/-- `ThermostatObject.poll_status`: the `finally` block invokes
`safe_disconnect` (which swallows its own errors) on every exit path. -/
def objPollTrace (o : BleOracle) : List Event × Outcome :=
  let t := objPollTryTrace o
  (t.1 ++ [Event.disconnect], t.2)

/-- The per-device body of `syncWithThermostats` (services/stateFetch.py): it
awaits `thermostat.poll_status()` — whose own `finally` already disconnected —
catches `BleakError`/`EqivaException`, and then its own `finally` block invokes
`thermostat.safe_disconnect()` a second time. -/
def syncLoopStepTrace (o : BleOracle) : List Event :=
  (objPollTrace o).1 ++ [Event.disconnect]

/-- C2 counterexample: in the stateFetch sync loop, one fully successful poll
attempt issues one transport `connect` but two transport `disconnect`
invocations (one from the `finally` inside `poll_status`, one from the sync
sync loop itself), so the per-attempt connect count does not equal the
per-attempt disconnect count. -/
theorem C2_sync_loop_double_disconnect :
    countEvent Event.connect (syncLoopStepTrace allOk) = 1
    ∧ countEvent Event.disconnect (syncLoopStepTrace allOk) = 2
    ∧ ¬ (countEvent Event.connect (syncLoopStepTrace allOk)
          = countEvent Event.disconnect (syncLoopStepTrace allOk)) := by
  refine ⟨rfl, rfl, ?_⟩
  simp [syncLoopStepTrace, objPollTrace, objPollTryTrace, allOk, countEvent]

/-- A record of the service status store (`ThermostatService.status_store[mac]`).
Records are only ever created by `create_default_thermostat_status` or by the
polling path, so the key set is fixed and a structure is a faithful model of the
Python dict; `last_updated` is absent (`none`) until a poll stamps it. -/
structure StatusRecord where
  targetHeatingCoolingState : Nat
  targetTemperature : ℚ
  currentHeatingCoolingState : Nat
  currentTemperature : ℚ
  currentRelativeHumidity : ℚ
  last_updated : Option String
deriving DecidableEq, Repr

/-- `create_default_thermostat_status` (api/models/thermostat.py). -/
def create_default_thermostat_status : StatusRecord :=
  { targetHeatingCoolingState := 0
    targetTemperature := 20
    currentHeatingCoolingState := 0
    currentTemperature := 20
    currentRelativeHumidity := 50
    last_updated := none }

/-- `ThermostatService.get_status`: an unseen MAC gets the default record which
is persisted immediately; the returned Boolean records whether
`save_status_store` was invoked. -/
def svcGetStatus (store : Option StatusRecord) :
    StatusRecord × Option StatusRecord × Bool :=
  match store with
  | none => (create_default_thermostat_status, some create_default_thermostat_status, true)
  | some r => (r, some r, false)

/-- What one successful `requestStatus` round of `ThermostatService.poll_status`
observes: the device mode, valve and temperature, the ambient (DHT) readings at
that moment, and the wall-clock string used to stamp `last_updated`. -/
structure PollInput where
  mode : Mode
  valve : Int
  temp : ℚ
  dhtTemp : Option ℚ
  dhtHum : Option ℚ
  now : String
deriving DecidableEq, Repr

/-- The `new_status` dict built inside `ThermostatService.poll_status`:
DHT readings substitute for the device temperature / a 50 percent humidity
default when present, the target state is computed inline from the mode flags,
and the current state comes from the api calculator applied to mode and valve. -/
def buildCandidate (inp : PollInput) : StatusRecord :=
  { targetHeatingCoolingState :=
      if inp.mode.auto = true then 3 else if inp.mode.manual = true then 1 else 0
    targetTemperature := inp.temp
    currentHeatingCoolingState := api_calculate_heating_cooling_state inp.mode (some inp.valve)
    currentTemperature := (inp.dhtTemp).getD inp.temp
    currentRelativeHumidity := (inp.dhtHum).getD 50
    last_updated := none }

/-- The comparable subset of a status record: every field except
`last_updated`, `currentTemperature` and `currentRelativeHumidity`, exactly the
dict comprehensions in `ThermostatService.poll_status`. -/
structure ComparableFields where
  targetHeatingCoolingState : Nat
  targetTemperature : ℚ
  currentHeatingCoolingState : Nat
deriving DecidableEq, Repr

/-- Projection of a record onto its comparable subset. -/
def comparable_fields (r : StatusRecord) : ComparableFields :=
  ⟨r.targetHeatingCoolingState, r.targetTemperature, r.currentHeatingCoolingState⟩

/-- The store-reconciliation step of `ThermostatService.poll_status`: a new MAC
is inserted and persisted; otherwise the candidate is compared against the
stored record on the comparable subset, and only a difference replaces the
record, stamps `last_updated` and persists.  The Boolean records whether
`save_status_store` was invoked. -/
def storeUpdate (store : Option StatusRecord) (inp : PollInput) :
    Option StatusRecord × Bool :=
  let ns := buildCandidate inp
  match store with
  | none => (some { ns with last_updated := some inp.now }, true)
  | some cur =>
      if comparable_fields cur ≠ comparable_fields ns then
        (some { ns with last_updated := some inp.now }, true)
      else (some cur, false)

/-- One attempt of `ThermostatService.poll_status` for one MAC: connect (the
service `safe_connect` has no exception handler of its own), request status,
reconcile the store, and disconnect in the `finally` block on every path.
Returns the trace, the updated store entry and the outcome. -/
def svcPollAttempt (o : BleOracle) (store : Option StatusRecord) (inp : PollInput) :
    List Event × Option StatusRecord × Outcome :=
  if o.connectOk = true then
    if o.requestOk = true then
      let u := storeUpdate store inp
      (([Event.connect, Event.requestStatus]
          ++ (if u.2 then [Event.saveStore] else []))
          ++ [Event.disconnect],
        u.1,
        if u.2 ∧ o.saveOk = false then Outcome.exc else Outcome.ok)
    else ([Event.connect, Event.requestStatus, Event.disconnect], store, Outcome.exc)
  else ([Event.connect, Event.disconnect], store, Outcome.exc)

/-- Candidates built from identical mode, valve and device temperature agree on
the comparable subset, whatever the ambient readings and timestamps were. -/
lemma comparable_buildCandidate_congr (inp1 inp2 : PollInput)
    (hm : inp2.mode = inp1.mode) (hv : inp2.valve = inp1.valve)
    (ht : inp2.temp = inp1.temp) :
    comparable_fields (buildCandidate inp2) = comparable_fields (buildCandidate inp1) := by
  simp [comparable_fields, buildCandidate, hm, hv, ht]

/-- After any store-reconciliation step, the stored record agrees with the
candidate of that step on the comparable subset. -/
lemma comparable_after_storeUpdate (store : Option StatusRecord) (inp : PollInput) :
    ∃ r, (storeUpdate store inp).1 = some r
      ∧ comparable_fields r = comparable_fields (buildCandidate inp) := by
  cases store with
  | none => exact ⟨_, rfl, rfl⟩
  | some cur =>
      by_cases h : comparable_fields cur ≠ comparable_fields (buildCandidate inp)
      · refine ⟨{ buildCandidate inp with last_updated := some inp.now }, ?_, rfl⟩
        simp [storeUpdate, h]
      · push_neg at h
        exact ⟨cur, by simp [storeUpdate, h], h⟩

/-- C3: two consecutive poll attempts that observe identical mode, valve and
device temperature persist at most once: the second attempt finds no difference
on the comparable subset (which excludes `last_updated`, `currentTemperature`
and `currentRelativeHumidity`), leaves the store entry untouched, and makes no
persistence call — whatever the ambient readings of either cycle were. -/
theorem C3_diff_suppresses_redundant_writes
    (o1 o2 : BleOracle) (store : Option StatusRecord) (inp1 inp2 : PollInput)
    (hc1 : o1.connectOk = true) (hr1 : o1.requestOk = true)
    (hc2 : o2.connectOk = true) (hr2 : o2.requestOk = true)
    (hm : inp2.mode = inp1.mode) (hv : inp2.valve = inp1.valve)
    (ht : inp2.temp = inp1.temp) :
    countEvent Event.saveStore (svcPollAttempt o2 (svcPollAttempt o1 store inp1).2.1 inp2).1 = 0
    ∧ (svcPollAttempt o2 (svcPollAttempt o1 store inp1).2.1 inp2).2.1
        = (svcPollAttempt o1 store inp1).2.1
    ∧ countEvent Event.saveStore (svcPollAttempt o1 store inp1).1
        + countEvent Event.saveStore (svcPollAttempt o2 (svcPollAttempt o1 store inp1).2.1 inp2).1
        ≤ 1 := by
  obtain ⟨r, hr0, hcmp⟩ := comparable_after_storeUpdate store inp1
  have hcmp2 : comparable_fields r = comparable_fields (buildCandidate inp2) :=
    hcmp.trans (comparable_buildCandidate_congr inp1 inp2 hm hv ht).symm
  have hupd2 : storeUpdate (some r) inp2 = (some r, false) := by
    simp [storeUpdate, hcmp2]
  refine ⟨?_, ?_, ?_⟩ <;>
    rcases hsave : (storeUpdate store inp1).2 with _ | _ <;>
      simp [svcPollAttempt, hc1, hr1, hc2, hr2, hsave, hupd2, hr0, countEvent]

/-- Witness for C3 at a concrete device history: a fresh store and two polls
reporting manual mode, valve 40 and 21.5 °C, with different ambient readings
in the two cycles. -/
theorem C3_witness :
    (let o : BleOracle := allOk
     let inp1 : PollInput :=
       ⟨⟨false, true, false⟩, 40, 43/2, some 22, some 55, "t1"⟩
     let inp2 : PollInput :=
       ⟨⟨false, true, false⟩, 40, 43/2, none, some 60, "t2"⟩
     countEvent Event.saveStore (svcPollAttempt o (svcPollAttempt o none inp1).2.1 inp2).1 = 0
     ∧ (svcPollAttempt o (svcPollAttempt o none inp1).2.1 inp2).2.1
         = (svcPollAttempt o none inp1).2.1
     ∧ countEvent Event.saveStore (svcPollAttempt o none inp1).1
         + countEvent Event.saveStore (svcPollAttempt o (svcPollAttempt o none inp1).2.1 inp2).1
         ≤ 1) := by
  exact C3_diff_suppresses_redundant_writes allOk allOk none
    ⟨⟨false, true, false⟩, 40, 43/2, some 22, some 55, "t1"⟩
    ⟨⟨false, true, false⟩, 40, 43/2, none, some 60, "t2"⟩
    rfl rfl rfl rfl rfl rfl rfl

/-- The `data` dict handed to `ThermostatObject.__init__`; `none` models an
absent key, so `data.get(key, default)` becomes `Option.getD`. -/
structure InitData where
  id : Option String := none
  mac : Option String := none
  targetHeatingCoolingState : Option Nat := none
  targetTemperature : Option ℚ := none
  currentHeatingCoolingState : Option Nat := none
  currentTemperature : Option ℚ := none
  currentRelativeHumidity : Option ℚ := none
  last_updated : Option String := none
  first_seen : Option String := none
  min_temperature : Option ℚ := none
  max_temperature : Option ℚ := none
deriving DecidableEq, Repr

/-- The mutable attributes of a `ThermostatObject`
(ServerObjects/thermostat_object.py). -/
structure ThermostatObjectState where
  id : Option String
  mac : Option String
  failed_connection : Bool
  targetHeatingCoolingState : Nat
  targetTemperature : ℚ
  currentHeatingCoolingState : Nat
  currentTemperature : ℚ
  currentRelativeHumidity : ℚ
  last_updated : Option String
  first_seen : String
  min_temperature : ℚ
  max_temperature : ℚ
  DHT_connected : Bool
deriving DecidableEq, Repr

/-- `ThermostatObject.__init__`: `now` is the `strftime` value used when
`first_seen` is absent from the data; `DHT_connected` and `failed_connection`
start `False` unconditionally. -/
def thermostatObjectInit (data : InitData) (now : String) : ThermostatObjectState :=
  { id := data.id
    mac := data.mac
    failed_connection := false
    targetHeatingCoolingState := (data.targetHeatingCoolingState).getD 0
    targetTemperature := (data.targetTemperature).getD 0
    currentHeatingCoolingState := (data.currentHeatingCoolingState).getD 0
    currentTemperature := (data.currentTemperature).getD 0
    currentRelativeHumidity := (data.currentRelativeHumidity).getD 0
    last_updated := data.last_updated
    first_seen := (data.first_seen).getD now
    min_temperature := (data.min_temperature).getD 5
    max_temperature := (data.max_temperature).getD 30
    DHT_connected := false }

/-- `create_thermostat` in flaskUI/thermostat_routes.py on the GET path (no
POST body): the data dict holds exactly the MAC and a fresh id. -/
def create_thermostat (mac id now : String) : ThermostatObjectState :=
  thermostatObjectInit { mac := some mac, id := some id } now

/-- The unknown-MAC branch of `ThermostatRoute.get`: the thermostat is created
with defaults and the configuration is saved immediately. -/
def flaskFirstReference (mac id now : String) : ThermostatObjectState × List Event :=
  (create_thermostat mac id now, [Event.saveStore])

/-- `ThermostatObject.update_dht_related_status`: marks the DHT as connected
and overwrites whichever readings were supplied. -/
def update_dht_related_status (s : ThermostatObjectState)
    (temperature humidity : Option ℚ) : ThermostatObjectState :=
  { s with
    DHT_connected := true
    currentTemperature := temperature.getD s.currentTemperature
    currentRelativeHumidity := humidity.getD s.currentRelativeHumidity }

/-- The status dict returned by `ThermostatObject.get_status`:
`currentRelativeHumidity` is an optional key, and `currentTemperature` starts
out as the target temperature and is overwritten by the stored ambient reading
only when the DHT is connected. -/
structure StatusResponse where
  targetHeatingCoolingState : Nat
  targetTemperature : ℚ
  currentHeatingCoolingState : Nat
  currentTemperature : ℚ
  currentRelativeHumidity : Option ℚ
deriving DecidableEq, Repr

/-- `ThermostatObject.get_status`. -/
def obj_get_status (s : ThermostatObjectState) : StatusResponse :=
  if s.DHT_connected = true then
    { targetHeatingCoolingState := s.targetHeatingCoolingState
      targetTemperature := s.targetTemperature
      currentHeatingCoolingState := s.currentHeatingCoolingState
      currentTemperature := s.currentTemperature
      currentRelativeHumidity := some s.currentRelativeHumidity }
  else
    { targetHeatingCoolingState := s.targetHeatingCoolingState
      targetTemperature := s.targetTemperature
      currentHeatingCoolingState := s.currentHeatingCoolingState
      currentTemperature := s.targetTemperature
      currentRelativeHumidity := none }

/-- Results a command operation can return (the `result` dicts of
`set_temperature` / `set_mode`); `raised` marks an exception that escaped the
operation (an uncaught persistence failure). -/
inductive CmdResult where
  | okTemp (value : ℚ)
  | okMode (mode : Nat)
  | deviceNotFound
  | protocolError
  | valueRequired
  | invalidMode
  | raised
deriving DecidableEq, Repr

/-- `ThermostatObject.set_temperature` for an already-parsed value: connect,
issue the BLE `setTemperature` command, and disconnect in the `finally` block
on every path.  A failing connect raises `BleakError` before any command; a
failing command raises `EqivaException` after the command invocation.
`safe_connect` clears `failed_connection` on success and the error handlers set
it. -/
def objSetTemperature (o : BleOracle) (s : ThermostatObjectState) (value : ℚ) :
    List Event × ThermostatObjectState × CmdResult :=
  if o.connectOk = true then
    if o.cmdOk = true then
      ([Event.connect, Event.setTemperatureCmd value, Event.disconnect],
        { s with failed_connection := false }, CmdResult.okTemp value)
    else
      ([Event.connect, Event.setTemperatureCmd value, Event.disconnect],
        { s with failed_connection := true }, CmdResult.protocolError)
  else
    ([Event.connect, Event.disconnect],
      { s with failed_connection := true }, CmdResult.deviceNotFound)

/-- `ThermostatObject.set_mode`: an empty mode string is rejected before the
`try` block; otherwise the device is connected first and only then is the mode
dispatched — an unrecognised mode returns the invalid-mode error from inside
the `try` block, after the connect, with the `finally` disconnect still
running.  The object never updates `targetHeatingCoolingState` here. -/
def objSetMode (o : BleOracle) (s : ThermostatObjectState) (mode : String) :
    List Event × ThermostatObjectState × CmdResult :=
  if mode = "" then ([], s, CmdResult.valueRequired)
  else if o.connectOk = true then
    if mode = "0" then
      if o.cmdOk = true then
        ([Event.connect, Event.setTemperatureOff, Event.disconnect],
          { s with failed_connection := false }, CmdResult.okMode 0)
      else
        ([Event.connect, Event.setTemperatureOff, Event.disconnect],
          { s with failed_connection := true }, CmdResult.protocolError)
    else if mode = "1" ∨ mode = "2" then
      if o.cmdOk = true then
        ([Event.connect, Event.setModeManual, Event.disconnect],
          { s with failed_connection := false },
          CmdResult.okMode (if mode = "1" then 1 else 2))
      else
        ([Event.connect, Event.setModeManual, Event.disconnect],
          { s with failed_connection := true }, CmdResult.protocolError)
    else if mode = "3" then
      if o.cmdOk = true then
        ([Event.connect, Event.setModeAuto, Event.disconnect],
          { s with failed_connection := false }, CmdResult.okMode 3)
      else
        ([Event.connect, Event.setModeAuto, Event.disconnect],
          { s with failed_connection := true }, CmdResult.protocolError)
    else
      ([Event.connect, Event.disconnect],
        { s with failed_connection := false }, CmdResult.invalidMode)
  else
    ([Event.connect, Event.disconnect],
      { s with failed_connection := true }, CmdResult.deviceNotFound)

/-- `ThermostatService.set_temperature` acting on the status-store record of
the device: connect, issue the BLE command, write `targetTemperature` into the
store, persist, and disconnect in the `finally` block on every path.  A failing
persistence call raises after the in-memory store was already updated. -/
def svcSetTemperature (o : BleOracle) (rec : StatusRecord) (value : ℚ) :
    List Event × StatusRecord × CmdResult :=
  if o.connectOk = true then
    if o.cmdOk = true then
      ([Event.connect, Event.setTemperatureCmd value, Event.saveStore, Event.disconnect],
        { rec with targetTemperature := value },
        if o.saveOk = true then CmdResult.okTemp value else CmdResult.raised)
    else
      ([Event.connect, Event.setTemperatureCmd value, Event.disconnect],
        rec, CmdResult.protocolError)
  else
    ([Event.connect, Event.disconnect], rec, CmdResult.deviceNotFound)

/-- `ThermostatService.set_mode` acting on the status-store record: connect
first, dispatch the mode command, then write
3 for mode 3, 1 for modes 1 and 2, and 0 otherwise into
`targetHeatingCoolingState`, persist, and disconnect in the `finally` block.
An unrecognised mode returns the invalid-mode error after the connect but
before any transport command or store write. -/
def svcSetMode (o : BleOracle) (rec : StatusRecord) (mode : String) :
    List Event × StatusRecord × CmdResult :=
  if o.connectOk = true then
    if mode = "0" ∨ mode = "1" ∨ mode = "2" ∨ mode = "3" then
      let cmdEvent :=
        if mode = "0" then Event.setTemperatureOff
        else if mode = "3" then Event.setModeAuto
        else Event.setModeManual
      if o.cmdOk = true then
        let newTarget : Nat :=
          if mode = "3" then 3 else if mode = "1" ∨ mode = "2" then 1 else 0
        ([Event.connect, cmdEvent, Event.saveStore, Event.disconnect],
          { rec with targetHeatingCoolingState := newTarget },
          if o.saveOk = true then
            CmdResult.okMode
              (if mode = "0" then 0 else if mode = "1" then 1
                else if mode = "2" then 2 else 3)
          else CmdResult.raised)
      else
        ([Event.connect, cmdEvent, Event.disconnect], rec, CmdResult.protocolError)
    else
      ([Event.connect, Event.disconnect], rec, CmdResult.invalidMode)
  else
    ([Event.connect, Event.disconnect], rec, CmdResult.deviceNotFound)

/-- C2 counterexample forces this amendment: on every exit path of every single
operation attempt, disconnect is invoked at least once per connect; the
per-attempt connect and disconnect counts are equal (one each, or zero each
when the operation is rejected before connecting) in `ThermostatObject.poll_status`,
in the service poll attempt, and in all four command operations — but the
stateFetch sync loop invokes disconnect a second time after `poll_status`
already disconnected, so there the disconnect count is the connect count plus
one. -/
theorem C2_amended_connect_disconnect_pairing
    (o : BleOracle) (store : Option StatusRecord) (inp : PollInput)
    (rec : StatusRecord) (s : ThermostatObjectState) (v : ℚ) (mode : String) :
    (countEvent Event.connect (objPollTrace o).1
      = countEvent Event.disconnect (objPollTrace o).1)
    ∧ (countEvent Event.connect (svcPollAttempt o store inp).1
      = countEvent Event.disconnect (svcPollAttempt o store inp).1)
    ∧ (countEvent Event.connect (svcSetTemperature o rec v).1
      = countEvent Event.disconnect (svcSetTemperature o rec v).1)
    ∧ (countEvent Event.connect (svcSetMode o rec mode).1
      = countEvent Event.disconnect (svcSetMode o rec mode).1)
    ∧ (countEvent Event.connect (objSetTemperature o s v).1
      = countEvent Event.disconnect (objSetTemperature o s v).1)
    ∧ (countEvent Event.connect (objSetMode o s mode).1
      = countEvent Event.disconnect (objSetMode o s mode).1)
    ∧ (countEvent Event.disconnect (syncLoopStepTrace o)
      = countEvent Event.connect (syncLoopStepTrace o) + 1) := by
  obtain ⟨c, r, cmd, sv⟩ := o
  refine ⟨?_, ?_, ?_, ?_, ?_, ?_, ?_⟩ <;>
    cases c <;> cases r <;> cases cmd <;>
      simp [objPollTrace, objPollTryTrace, svcPollAttempt, svcSetTemperature,
        svcSetMode, objSetTemperature, objSetMode, syncLoopStepTrace, countEvent] <;>
      split_ifs <;> simp [countEvent]

/-- HTTP-level outcome of a thermostat route handler. -/
inductive RouteOutcome where
  | succeeded
  | valueRequiredError
  | boundsError
  | invalidTemperatureError
  | invalidModeError
  | commandError
deriving DecidableEq, Repr

/-- The `targetTemperature` branch of `ThermostatRoute.get`
(flaskUI/thermostat_routes.py): `value` is the parsed query parameter (`none`
models a missing or unparseable value, both rejected before any device call);
a parsed value outside `[min_temperature, max_temperature]` of the device is
rejected with a 400 before `set_temperature` is ever invoked. -/
def flaskSetTemperatureRoute (o : BleOracle) (s : ThermostatObjectState)
    (value : Option ℚ) : List Event × ThermostatObjectState × RouteOutcome :=
  match value with
  | none => ([], s, RouteOutcome.invalidTemperatureError)
  | some v =>
      if s.min_temperature ≤ v ∧ v ≤ s.max_temperature then
        let r := objSetTemperature o s v
        (r.1, r.2.1,
          match r.2.2 with
          | CmdResult.okTemp _ => RouteOutcome.succeeded
          | _ => RouteOutcome.commandError)
      else ([], s, RouteOutcome.boundsError)

/-- The `targetHeatingCoolingState` branch of `ThermostatRoute.get`: an empty
value is the value-required error; a value other than 0, 1, 2 or 3 is the
invalid-mode 400 issued before `set_mode` is ever invoked. -/
def flaskSetModeRoute (o : BleOracle) (s : ThermostatObjectState)
    (mode : String) : List Event × ThermostatObjectState × RouteOutcome :=
  if mode = "" then ([], s, RouteOutcome.valueRequiredError)
  else if mode = "0" ∨ mode = "1" ∨ mode = "2" ∨ mode = "3" then
    let r := objSetMode o s mode
    (r.1, r.2.1,
      match r.2.2 with
      | CmdResult.okMode _ => RouteOutcome.succeeded
      | _ => RouteOutcome.commandError)
  else ([], s, RouteOutcome.invalidModeError)

/-- C4: a requested temperature outside the bounds of the device is rejected
with the invalid-value error and zero calls to the BLE transport (empty
trace, so in particular no connect and no `setTemperature` command), and state
is untouched; a value inside the bounds reaches the transport: the
`setTemperature` command carrying exactly that value is invoked (shown here
under a successful connect, since a connect refusal by the BLE stack aborts
any operation). -/
theorem C4_set_temperature_range_validation
    (o : BleOracle) (s : ThermostatObjectState) (v : ℚ) :
    (¬ (s.min_temperature ≤ v ∧ v ≤ s.max_temperature) →
      (flaskSetTemperatureRoute o s (some v)).1 = []
      ∧ (flaskSetTemperatureRoute o s (some v)).2.2 = RouteOutcome.boundsError
      ∧ (flaskSetTemperatureRoute o s (some v)).2.1 = s)
    ∧ (s.min_temperature ≤ v → v ≤ s.max_temperature → o.connectOk = true →
      Event.setTemperatureCmd v ∈ (flaskSetTemperatureRoute o s (some v)).1) := by
  constructor
  · intro h
    refine ⟨?_, ?_, ?_⟩ <;> simp [flaskSetTemperatureRoute, h]
  · intro h1 h2 hc
    rcases hcmd : o.cmdOk with _ | _ <;>
      simp [flaskSetTemperatureRoute, objSetTemperature, h1, h2, hc, hcmd]

/-- Witness for C4 on a freshly created device with default bounds [5, 30]:
35 °C is rejected with an empty trace, while 21.5 °C reaches the transport. -/
theorem C4_witness :
    (¬ ((create_thermostat "00:11:22:33:44:55" "1" "t0").min_temperature ≤ (35:ℚ)
        ∧ (35:ℚ) ≤ (create_thermostat "00:11:22:33:44:55" "1" "t0").max_temperature))
    ∧ (flaskSetTemperatureRoute allOk (create_thermostat "00:11:22:33:44:55" "1" "t0")
        (some 35)).1 = []
    ∧ (flaskSetTemperatureRoute allOk (create_thermostat "00:11:22:33:44:55" "1" "t0")
        (some 35)).2.2 = RouteOutcome.boundsError
    ∧ Event.setTemperatureCmd (43/2)
        ∈ (flaskSetTemperatureRoute allOk (create_thermostat "00:11:22:33:44:55" "1" "t0")
            (some (43/2))).1 := by
  have hb : ¬ ((create_thermostat "00:11:22:33:44:55" "1" "t0").min_temperature ≤ (35:ℚ)
      ∧ (35:ℚ) ≤ (create_thermostat "00:11:22:33:44:55" "1" "t0").max_temperature) := by
    simp [create_thermostat, thermostatObjectInit]
    norm_num
  have h1 := (C4_set_temperature_range_validation allOk
    (create_thermostat "00:11:22:33:44:55" "1" "t0") 35).1 hb
  have h2 := (C4_set_temperature_range_validation allOk
    (create_thermostat "00:11:22:33:44:55" "1" "t0") (43/2)).2
    (by simp [create_thermostat, thermostatObjectInit]; norm_num)
    (by simp [create_thermostat, thermostatObjectInit]; norm_num)
    rfl
  exact ⟨hb, h1.1, h1.2.1, h2⟩

/-- C6: a mode value outside the accepted set 0, 1, 2, 3 is rejected by the route with
the invalid-mode 400 and an empty trace — the device is never contacted: no
BLE connect and no transport command precede the rejection — and the
thermostat state is untouched. -/
theorem C6_invalid_mode_rejected_before_contact
    (o : BleOracle) (s : ThermostatObjectState) (mode : String)
    (hne : mode ≠ "")
    (h0 : mode ≠ "0") (h1 : mode ≠ "1") (h2 : mode ≠ "2") (h3 : mode ≠ "3") :
    (flaskSetModeRoute o s mode).1 = []
    ∧ (flaskSetModeRoute o s mode).2.2 = RouteOutcome.invalidModeError
    ∧ (flaskSetModeRoute o s mode).2.1 = s := by
  refine ⟨?_, ?_, ?_⟩ <;> simp [flaskSetModeRoute, hne, h0, h1, h2, h3]

/-- Witness for C6: mode value "4" on a fresh device, with an oracle under
which every BLE call would have succeeded, still yields the invalid-mode error
with an empty trace. -/
theorem C6_witness :
    (flaskSetModeRoute allOk (create_thermostat "00:11:22:33:44:55" "1" "t0") "4").1 = []
    ∧ (flaskSetModeRoute allOk (create_thermostat "00:11:22:33:44:55" "1" "t0") "4").2.2
        = RouteOutcome.invalidModeError
    ∧ (flaskSetModeRoute allOk (create_thermostat "00:11:22:33:44:55" "1" "t0") "4").2.1
        = create_thermostat "00:11:22:33:44:55" "1" "t0" :=
  C6_invalid_mode_rejected_before_contact allOk
    (create_thermostat "00:11:22:33:44:55" "1" "t0") "4"
    (by decide) (by decide) (by decide) (by decide) (by decide)

/-- C5 counterexample: on the flaskUI/ServerObjects path, a fully successful
`setMode "3"` request on a fresh device issues the auto-mode transport call and
reports success, yet the stored `targetHeatingCoolingState` remains 0 — not
Auto(3) as the claim requires of every device. -/
theorem C5_object_path_does_not_store_mode :
    (flaskSetModeRoute allOk (create_thermostat "00:11:22:33:44:55" "1" "t0") "3").2.2
        = RouteOutcome.succeeded
    ∧ Event.setModeAuto
        ∈ (flaskSetModeRoute allOk (create_thermostat "00:11:22:33:44:55" "1" "t0") "3").1
    ∧ (flaskSetModeRoute allOk
        (create_thermostat "00:11:22:33:44:55" "1" "t0") "3").2.1.targetHeatingCoolingState
        = 0
    ∧ (0 : Nat) ≠ 3 := by
  refine ⟨?_, ?_, ?_, by omega⟩ <;>
    simp [flaskSetModeRoute, objSetMode, allOk, create_thermostat, thermostatObjectInit]

/-- C5 amended: in the API service, `setMode` with mode 1 or 2 issues the
manual-mode transport call and stores `targetHeatingCoolingState = 1`, mode 3
issues the auto-mode call and stores 3, and mode 0 issues the off command and
stores 0; the ServerObjects `set_mode`, by contrast, issues the same transport
calls but never changes `targetHeatingCoolingState` — the stored value is only
refreshed by the next poll. -/
theorem C5_amended_mode_aliasing (o : BleOracle) (rec : StatusRecord)
    (hc : o.connectOk = true) (hcmd : o.cmdOk = true) (hs : o.saveOk = true) :
    (Event.setModeManual ∈ (svcSetMode o rec "1").1
      ∧ (svcSetMode o rec "1").2.1.targetHeatingCoolingState = 1
      ∧ (svcSetMode o rec "1").2.2 = CmdResult.okMode 1)
    ∧ (Event.setModeManual ∈ (svcSetMode o rec "2").1
      ∧ (svcSetMode o rec "2").2.1.targetHeatingCoolingState = 1
      ∧ (svcSetMode o rec "2").2.2 = CmdResult.okMode 2)
    ∧ (Event.setModeAuto ∈ (svcSetMode o rec "3").1
      ∧ (svcSetMode o rec "3").2.1.targetHeatingCoolingState = 3
      ∧ (svcSetMode o rec "3").2.2 = CmdResult.okMode 3)
    ∧ (Event.setTemperatureOff ∈ (svcSetMode o rec "0").1
      ∧ (svcSetMode o rec "0").2.1.targetHeatingCoolingState = 0
      ∧ (svcSetMode o rec "0").2.2 = CmdResult.okMode 0)
    ∧ (∀ (s : ThermostatObjectState) (mode : String),
        (objSetMode o s mode).2.1.targetHeatingCoolingState
          = s.targetHeatingCoolingState) := by
  refine ⟨⟨?_, ?_, ?_⟩, ⟨?_, ?_, ?_⟩, ⟨?_, ?_, ?_⟩, ⟨?_, ?_, ?_⟩, ?_⟩ <;>
    first
      | simp [svcSetMode, hc, hcmd, hs]
      | (intro s mode
         simp only [objSetMode]
         split_ifs <;> rfl)

/-- Witness for C5 amended at a concrete record and the all-success oracle. -/
theorem C5_amended_witness :
    Event.setModeManual ∈ (svcSetMode allOk create_default_thermostat_status "1").1
    ∧ (svcSetMode allOk create_default_thermostat_status "1").2.1.targetHeatingCoolingState = 1
    ∧ (svcSetMode allOk create_default_thermostat_status "2").2.1.targetHeatingCoolingState = 1
    ∧ (svcSetMode allOk create_default_thermostat_status "3").2.1.targetHeatingCoolingState = 3
    ∧ (svcSetMode allOk create_default_thermostat_status "0").2.1.targetHeatingCoolingState = 0 := by
  have h := C5_amended_mode_aliasing allOk create_default_thermostat_status rfl rfl rfl
  exact ⟨h.1.1, h.1.2.1, h.2.1.2.1, h.2.2.1.2.1, h.2.2.2.1.2.1⟩

/-- C7 counterexample: the first reference to an unregistered MAC through the
flaskUI registry (`ThermostatRoute.get` creating a `ThermostatObject` from
`{"mac": mac, "id": id}`) produces a record whose `targetTemperature` is the
`__init__` default 0.0, not 20.0 as the claim requires of every registry. -/
theorem C7_flask_registry_default_is_zero :
    (flaskFirstReference "00:11:22:33:44:55" "1" "t0").1.targetTemperature = 0
    ∧ (flaskFirstReference "00:11:22:33:44:55" "1" "t0").1.targetHeatingCoolingState = 0
    ∧ ((0 : ℚ) ≠ 20) := by
  refine ⟨rfl, rfl, by norm_num⟩

/-- C7 amended: through the API status store, the first reference to an
unseen MAC creates the default record with `targetTemperature = 20.0` and
`targetHeatingCoolingState = Off(0)` and persists it immediately; through the
flaskUI registry, the first reference creates a device with
`targetHeatingCoolingState = Off(0)` but `targetTemperature = 0.0`, also
persisted immediately. -/
theorem C7_amended_unseen_device_defaults (mac id now : String) :
    (svcGetStatus none).1.targetTemperature = 20
    ∧ (svcGetStatus none).1.targetHeatingCoolingState = 0
    ∧ (svcGetStatus none).2.1 = some create_default_thermostat_status
    ∧ (svcGetStatus none).2.2 = true
    ∧ (flaskFirstReference mac id now).1.targetTemperature = 0
    ∧ (flaskFirstReference mac id now).1.targetHeatingCoolingState = 0
    ∧ (flaskFirstReference mac id now).2 = [Event.saveStore] := by
  exact ⟨rfl, rfl, rfl, rfl, rfl, rfl, rfl⟩

/-- Result of the interruptible inter-cycle wait of `syncWithThermostats`
(`asyncio.wait_for(_thermostat_shutdown_async.wait(), timeout=sleep_time)`):
the wait returns as soon as the shutdown event fires, breaking the loop, and
only a timeout continues it. -/
inductive WaitOutcome where
  | exitLoop
  | timedOut
deriving DecidableEq, Repr

/-- The inter-cycle wait of `syncWithThermostats` as a function of whether the
shutdown signal is raised during the wait. -/
def interCycleWait (shutdownRequested : Bool) : WaitOutcome :=
  if shutdownRequested = true then WaitOutcome.exitLoop else WaitOutcome.timedOut

/-- The per-cycle device walk of `syncWithThermostats`: before each device the
loop re-reads `_thermostat_shutdown.is_set()` (checkpoint `i`) and breaks when
it is set; otherwise it runs the per-device poll body for that device. -/
def syncDevicesPass (shut : Nat → Bool) (o : Nat → BleOracle) :
    Nat → Nat → List Event
  | _, 0 => []
  | i, Nat.succ n =>
      if shut i = true then []
      else syncLoopStepTrace (o i) ++ syncDevicesPass shut o (i + 1) n

/-- One iteration of `ThermostatService._polling_loop` over `n` registered
MACs.  The Python loop is `while True:` with a plain `sleep` — its body reads
no shutdown flag — so the `shutdownRequested` argument, which records whether a
shutdown has been signalled to the process, is never consulted. -/
def apiPollingLoopCycle (shutdownRequested : Bool) (o : Nat → BleOracle)
    (store : Nat → Option StatusRecord) (inp : Nat → PollInput) : Nat → List Event
  | 0 => []
  | Nat.succ n =>
      (svcPollAttempt (o n) (store n) (inp n)).1
        ++ apiPollingLoopCycle shutdownRequested o store inp n

/-- The inter-cycle pause of `ThermostatService._polling_loop`: a plain
`sleep(Config.get_current_polling_interval())`, which always lasts the full
interval whatever the shutdown state. -/
def apiInterCycleSleep (_shutdownRequested : Bool) (interval : Nat) : Nat :=
  interval

/-- C8 counterexample: with the shutdown signal already raised, a subsequent
cycle of the API-service polling loop still issues a BLE connect — its trace is
identical to the no-shutdown trace, because the loop body consults no shutdown
flag — and its inter-cycle sleep still lasts the full configured interval. -/
theorem C8_api_loop_ignores_shutdown :
    Event.connect
      ∈ apiPollingLoopCycle true (fun _ => allOk) (fun _ => none)
          (fun _ => ⟨⟨false, true, false⟩, 40, 43/2, none, none, "t1"⟩) 1
    ∧ apiPollingLoopCycle true (fun _ => allOk) (fun _ => none)
          (fun _ => ⟨⟨false, true, false⟩, 40, 43/2, none, none, "t1"⟩) 1
        = apiPollingLoopCycle false (fun _ => allOk) (fun _ => none)
            (fun _ => ⟨⟨false, true, false⟩, 40, 43/2, none, none, "t1"⟩) 1
    ∧ apiInterCycleSleep true 300 = 300 := by
  refine ⟨?_, rfl, rfl⟩
  simp [apiPollingLoopCycle, svcPollAttempt, storeUpdate, allOk]

/-- C8 amended: the stateFetch sync loop satisfies the claim — the shutdown
flag is re-checked between devices, so from the first checkpoint at which it is
set the pass issues no further device connects, and the inter-cycle wait exits
as soon as the shutdown event fires instead of sleeping out the interval; the
API-service polling loop, however, consults no shutdown signal at all: its
cycle trace is independent of the signal and its inter-cycle sleep always lasts
the full interval. -/
theorem C8_amended_shutdown_latency :
    (∀ (shut : Nat → Bool) (o : Nat → BleOracle) (i n : Nat),
      shut i = true → syncDevicesPass shut o i n = [])
    ∧ interCycleWait true = WaitOutcome.exitLoop
    ∧ (∀ (b : Bool) (o : Nat → BleOracle) (store : Nat → Option StatusRecord)
        (inp : Nat → PollInput) (n : Nat),
        apiPollingLoopCycle b o store inp n = apiPollingLoopCycle true o store inp n)
    ∧ (∀ (b : Bool) (interval : Nat), apiInterCycleSleep b interval = interval) := by
  refine ⟨?_, rfl, ?_, fun _ _ => rfl⟩
  · intro shut o i n h
    cases n <;> simp [syncDevicesPass, h]
  · intro b o store inp n
    induction n with
    | zero => rfl
    | succ n ih => simp [apiPollingLoopCycle, ih]

/-- Witness for C8 amended: with the shutdown flag raised from checkpoint 0, a
pass over three devices issues no events at all. -/
theorem C8_amended_witness :
    syncDevicesPass (fun _ => true) (fun _ => allOk) 0 3 = []
    ∧ interCycleWait true = WaitOutcome.exitLoop :=
  ⟨C8_amended_shutdown_latency.1 (fun _ => true) (fun _ => allOk) 0 3 rfl,
    C8_amended_shutdown_latency.2.1⟩

/-- An event in the life of one `ThermostatObject` after construction: an
ambient-sensor callback (`update_dht_related_status`) or the field updates of a
successful `poll_status`. -/
inductive DeviceOp where
  | dhtUpdate (temperature humidity : Option ℚ)
  | pollSuccess (mode : Mode) (valve : Int) (temp : ℚ) (ts : String)
deriving DecidableEq, Repr

/-- Apply one lifecycle event to the object state.  A successful poll rewrites
the target/current states and the target temperature exactly as the success
path of `ThermostatObject.poll_status` does; it never touches `DHT_connected`,
`currentTemperature` or `currentRelativeHumidity`. -/
def applyOp (s : ThermostatObjectState) : DeviceOp → ThermostatObjectState
  | DeviceOp.dhtUpdate t h => update_dht_related_status s t h
  | DeviceOp.pollSuccess m v t ts =>
      { s with
        failed_connection := false
        targetHeatingCoolingState := (calculate_heating_cooling_state m none).int
        targetTemperature := t
        currentHeatingCoolingState := (calculate_heating_cooling_state m (some v)).int
        last_updated := some ts }

/-- Run a list of lifecycle events from a given state. -/
def runOps (s : ThermostatObjectState) (ops : List DeviceOp) : ThermostatObjectState :=
  ops.foldl applyOp s

/-- Whether an event is an ambient-sensor update. -/
def isDhtUpdate : DeviceOp → Bool
  | DeviceOp.dhtUpdate _ _ => true
  | _ => false

/-- Whether a lifecycle contains at least one ambient-sensor update. -/
def hasDhtUpdate (ops : List DeviceOp) : Bool :=
  ops.any isDhtUpdate

/-- `DHT_connected` after a lifecycle: set exactly when it was already set or
some event was an ambient-sensor update. -/
lemma runOps_DHT_connected (s : ThermostatObjectState) (ops : List DeviceOp) :
    (runOps s ops).DHT_connected = (s.DHT_connected || hasDhtUpdate ops) := by
  induction ops generalizing s with
  | nil => simp [runOps, hasDhtUpdate]
  | cons op ops ih =>
      cases op with
      | dhtUpdate t h =>
          show (runOps (update_dht_related_status s t h) ops).DHT_connected = _
          rw [ih]
          simp [update_dht_related_status, hasDhtUpdate, isDhtUpdate]
      | pollSuccess m v t ts =>
          show (runOps (applyOp s (DeviceOp.pollSuccess m v t ts)) ops).DHT_connected = _
          rw [ih]
          simp [applyOp, hasDhtUpdate, isDhtUpdate]

/-- C9: for a device constructed from any data, the status response contains
the `currentRelativeHumidity` key exactly when the lifecycle so far contains at
least one ambient-sensor (DHT) update; before any such update the key is
omitted. -/
theorem C9_humidity_present_iff_dht_seen
    (data : InitData) (now : String) (ops : List DeviceOp) :
    ((obj_get_status (runOps (thermostatObjectInit data now) ops)).currentRelativeHumidity).isSome
      = hasDhtUpdate ops := by
  have h0 : (thermostatObjectInit data now).DHT_connected = false := rfl
  have h := runOps_DHT_connected (thermostatObjectInit data now) ops
  rw [h0] at h
  simp only [Bool.false_or] at h
  rcases hd : hasDhtUpdate ops with _ | _ <;>
    rw [hd] at h <;> simp [obj_get_status, h]

/-- C10: for a device constructed from any data, the status response reports
`currentTemperature` equal to the stored `targetTemperature` as long as no
ambient-sensor update has been received — whatever value the stored
`currentTemperature` field holds — and equal to the stored
`currentTemperature` once the lifecycle contains an ambient update. -/
theorem C10_current_temperature_fallback
    (data : InitData) (now : String) (ops : List DeviceOp) :
    (obj_get_status (runOps (thermostatObjectInit data now) ops)).currentTemperature
      = (if hasDhtUpdate ops = true then
          (runOps (thermostatObjectInit data now) ops).currentTemperature
        else
          (runOps (thermostatObjectInit data now) ops).targetTemperature) := by
  have h0 : (thermostatObjectInit data now).DHT_connected = false := rfl
  have h := runOps_DHT_connected (thermostatObjectInit data now) ops
  rw [h0] at h
  simp only [Bool.false_or] at h
  rcases hd : hasDhtUpdate ops with _ | _ <;>
    rw [hd] at h <;> simp [obj_get_status, h]

end RaspberryExtensionServer
